import Mathlib

/-!
Shallow embedding of `src/shs-server.py`, a smart home security websocket
server: the tri-state class flags of `DeviceRunner`, one iteration of its
polling loop, the NOTIFY/REPLY message builders, the inbound message
handler, and the `DeviceSocketHandler` waiter set with its best-effort
fan-out broadcast.
-/

namespace SHS

/-- Key constant `MESSAGE_TYPE_KEY` from the source. -/
def MESSAGE_TYPE_KEY : String := "MESSAGE_TYPE"

/-- Key constant `DEVICE_OPEN_KEY` from the source. -/
def DEVICE_OPEN_KEY : String := "DEVICE_OPEN"

/-- Key constant `DEVICE_ARMED_KEY` from the source. -/
def DEVICE_ARMED_KEY : String := "DEVICE_ARMED"

/-- Key constant `DEVICE_ENABLED_KEY` from the source. -/
def DEVICE_ENABLED_KEY : String := "DEVICE_ENABLED"

/-- The three class-level flags of `DeviceRunner`.  Each starts as Python
`None` and is later assigned a boolean, so each field is tri-state,
modelled as `Option Bool` with `none` standing for Python `None`. -/
structure DeviceState where
  isOpen : Option Bool
  isArmed : Option Bool
  isEnabled : Option Bool
deriving DecidableEq

/-- Python truthiness of a tri-state flag: `None` is falsy and a boolean is
its own truth value, as used by `if DeviceRunner.isArmed and ...`. -/
def truthy : Option Bool → Bool
  | none => false
  | some b => b

/-- Python `!=` between the fresh boolean sample and the tri-state
`isOpen` field: a boolean always differs from `None`, and two booleans
compare by value (`deviceState != DeviceRunner.isOpen` in the source). -/
def pyNe (sample : Bool) : Option Bool → Bool
  | none => true
  | some b => sample != b

/-- Values carried by an outbound message dict: the `MESSAGE_TYPE` string,
or a tri-state device flag (`None`/`True`/`False`). -/
inductive Value where
  | str : String → Value
  | tri : Option Bool → Value
deriving DecidableEq

/-- Predicate selecting outbound values that are actual booleans (a
tri-state flag that is not `None`). -/
def Value.isBool : Value → Bool
  | Value.tri (some _) => true
  | _ => false

/-- Outbound message: the dict literal built by the message builders, kept
as an ordered key-value list (modelled before `str(...).encode("utf-8")`). -/
abbrev OutMsg := List (String × Value)

/-- Inbound message: a decoded JSON object as a key-value list; per the
data model its values are booleans and keys occur at most once (a Python
dict), with lookup of a key returning its value when present. -/
abbrev InMsg := List (String × Bool)

/-- Method `DeviceRunner.device_notify_message`: a dict with
`MESSAGE_TYPE = "NOTIFY"` and the current `isOpen` under
`DEVICE_OPEN_KEY`. -/
def device_notify_message (s : DeviceState) : OutMsg :=
  [(MESSAGE_TYPE_KEY, Value.str "NOTIFY"),
   (DEVICE_OPEN_KEY, Value.tri s.isOpen)]

/-- Method `DeviceRunner.device_reply_message`: a dict with
`MESSAGE_TYPE = "REPLY"` and the current `isArmed` and `isEnabled` under
their keys. -/
def device_reply_message (s : DeviceState) : OutMsg :=
  [(MESSAGE_TYPE_KEY, Value.str "REPLY"),
   (DEVICE_ARMED_KEY, Value.tri s.isArmed),
   (DEVICE_ENABLED_KEY, Value.tri s.isEnabled)]

/-- Method `DeviceRunner.handle_message`: for each of the three device keys
present in the inbound message, assign the message's value to the
corresponding class flag; keys that are absent leave the flag as is, and
any other key is never inspected. -/
def handle_message (message : InMsg) (s : DeviceState) : DeviceState :=
  let s1 :=
    match message.lookup DEVICE_OPEN_KEY with
    | some v => { s with isOpen := some v }
    | none => s
  let s2 :=
    match message.lookup DEVICE_ARMED_KEY with
    | some v => { s1 with isArmed := some v }
    | none => s1
  match message.lookup DEVICE_ENABLED_KEY with
  | some v => { s2 with isEnabled := some v }
  | none => s2

/-- One iteration of the `DeviceRunner.run` polling loop body: given the
fresh sample read from the input pin, if `isArmed` and `isEnabled` are
truthy and the sample differs from `isOpen`, first store the sample into
`isOpen` and then broadcast a NOTIFY built from the updated state;
otherwise neither write nor broadcast.  The result is the new state
together with the NOTIFY message sent, if any. -/
def pollStep (sample : Bool) (s : DeviceState) : DeviceState × Option OutMsg :=
  if truthy s.isArmed && truthy s.isEnabled && pyNe sample s.isOpen then
    let s' := { s with isOpen := some sample }
    (s', some (device_notify_message s'))
  else
    (s, none)

/-- Handle to one connected client (`DeviceSocketHandler` instance),
identified only up to equality for set membership. -/
abbrev Observer := Nat

/-- Outcome of `DeviceSocketHandler.send_updates`: the (waiter, message)
writes that succeeded, in iteration order, and the waiters whose write
raised and was caught and logged. -/
structure BroadcastResult where
  delivered : List (Observer × OutMsg)
  logged : List Observer
deriving DecidableEq

/-- One `waiter.write_message(message)` call against the transport, whose
failure behaviour is the ambient function `fails`: it either succeeds or
raises. -/
def write_message (fails : Observer → Bool) (w : Observer) (_message : OutMsg) :
    Except Unit Unit :=
  if fails w then Except.error () else Except.ok ()

/-- Method `DeviceSocketHandler.send_updates`: iterate over all waiters and
attempt each write inside `try ... except`, so a raising write is logged
and the loop continues with the remaining waiters.  The function is total
(not `Except`-valued) because the bare `except` catches every write error:
nothing propagates to the caller. -/
def send_updates (fails : Observer → Bool) (message : OutMsg) :
    List Observer → BroadcastResult
  | [] => ⟨[], []⟩
  | w :: ws =>
    let rest := send_updates fails message ws
    match write_message fails w message with
    | Except.ok _ => ⟨(w, message) :: rest.delivered, rest.logged⟩
    | Except.error _ => ⟨rest.delivered, w :: rest.logged⟩

/-- Method `DeviceSocketHandler.open`: `waiters.add(self)`, a Python set
insertion, which leaves the set as is when the handler is already a
member. -/
def DeviceSocketHandler.«open» (w : Observer) (waiters : List Observer) :
    List Observer :=
  if w ∈ waiters then waiters else w :: waiters

/-- Method `DeviceSocketHandler.on_close`: `waiters.remove(self)`, a Python
`set.remove`, which deletes a present member and raises `KeyError` when
the handler is not in the set. -/
def DeviceSocketHandler.on_close (w : Observer) (waiters : List Observer) :
    Except String (List Observer) :=
  if w ∈ waiters then Except.ok (waiters.erase w) else Except.error "KeyError"

/-- Method `DeviceSocketHandler.on_message`: decode the raw text with the
transport's JSON decoder (`tornado.escape.json_decode`, an external
collaborator passed in as `decode`, which raises on malformed input); the
source wraps the call in no `try`/`except`, so a decode error propagates
out of the handler.  On success, `handle_message` applies the parsed
update and a REPLY built from the updated state is fanned out to all
waiters. -/
def on_message (decode : String → Except String InMsg) (fails : Observer → Bool)
    (raw : String) (s : DeviceState) (waiters : List Observer) :
    Except String (DeviceState × BroadcastResult) :=
  match decode raw with
  | Except.error e => Except.error e
  | Except.ok parsed =>
    let s' := handle_message parsed s
    Except.ok (s', send_updates fails (device_reply_message s') waiters)

/-- Equivalence packing the three fields of `DeviceState`, used to endow it
with a `Fintype` instance so bounded claims can be decided. -/
def DeviceState.equivTriple : DeviceState ≃ Option Bool × Option Bool × Option Bool where
  toFun s := (s.isOpen, s.isArmed, s.isEnabled)
  invFun p := ⟨p.1, p.2.1, p.2.2⟩
  left_inv := fun _ => rfl
  right_inv := fun _ => rfl

instance : Fintype DeviceState :=
  Fintype.ofEquiv _ DeviceState.equivTriple.symm

/-- Helper: `handle_message` leaves `isOpen` untouched unless the message
carries `DEVICE_OPEN_KEY`, in which case it stores the carried value. -/
theorem handle_message_isOpen (msg : InMsg) (s : DeviceState) :
    (handle_message msg s).isOpen =
      (msg.lookup DEVICE_OPEN_KEY).elim s.isOpen some := by
  unfold handle_message
  cases msg.lookup DEVICE_OPEN_KEY <;>
    cases msg.lookup DEVICE_ARMED_KEY <;>
      cases msg.lookup DEVICE_ENABLED_KEY <;> rfl

/-- Helper: `handle_message` leaves `isArmed` untouched unless the message
carries `DEVICE_ARMED_KEY`, in which case it stores the carried value. -/
theorem handle_message_isArmed (msg : InMsg) (s : DeviceState) :
    (handle_message msg s).isArmed =
      (msg.lookup DEVICE_ARMED_KEY).elim s.isArmed some := by
  unfold handle_message
  cases msg.lookup DEVICE_OPEN_KEY <;>
    cases msg.lookup DEVICE_ARMED_KEY <;>
      cases msg.lookup DEVICE_ENABLED_KEY <;> rfl

/-- Helper: `handle_message` leaves `isEnabled` untouched unless the message
carries `DEVICE_ENABLED_KEY`, in which case it stores the carried value. -/
theorem handle_message_isEnabled (msg : InMsg) (s : DeviceState) :
    (handle_message msg s).isEnabled =
      (msg.lookup DEVICE_ENABLED_KEY).elim s.isEnabled some := by
  unfold handle_message
  cases msg.lookup DEVICE_OPEN_KEY <;>
    cases msg.lookup DEVICE_ARMED_KEY <;>
      cases msg.lookup DEVICE_ENABLED_KEY <;> rfl

/-- Helper: the poller step writes neither `isArmed` nor `isEnabled`. -/
theorem pollStep_fst_frame (sample : Bool) (s : DeviceState) :
    (pollStep sample s).1.isArmed = s.isArmed ∧
      (pollStep sample s).1.isEnabled = s.isEnabled := by
  unfold pollStep
  split <;> exact ⟨rfl, rfl⟩

/-- Helper: `send_updates` delivers to exactly the waiters whose write does
not fail, in order, and logs exactly the failing ones. -/
theorem send_updates_spec (fails : Observer → Bool) (m : OutMsg)
    (waiters : List Observer) :
    send_updates fails m waiters =
      ⟨(waiters.filter fun w => !fails w).map fun w => (w, m),
       waiters.filter fun w => fails w⟩ := by
  induction waiters with
  | nil => rfl
  | cons w ws ih =>
    cases hw : fails w <;>
      simp [send_updates, write_message, hw, ih]

/-- Claim C1: in the poller loop a reportable transition occurs exactly
when `isArmed` and `isEnabled` are the boolean true and the fresh sample
differs from the last-known `isOpen` (an unknown `isOpen` counts as
different); on a transition the sample is written into `isOpen` and the
broadcast NOTIFY is built from the new `isOpen`, and in every other
combination of the three conditions neither a write nor a broadcast
happens. -/
theorem C1_poller_transition : ∀ (sample : Bool) (s : DeviceState),
    pollStep sample s =
      if s.isArmed = some true ∧ s.isEnabled = some true ∧ some sample ≠ s.isOpen then
        ({ s with isOpen := some sample },
         some (device_notify_message { s with isOpen := some sample }))
      else (s, none) := by decide

/-- Claim C2, counterexample: an inbound message carrying `DEVICE_OPEN_KEY`
does write `isOpen` through `handle_message`, so the message-dispatch path
is not free of writes to `open`. -/
theorem C2_counterexample :
    (handle_message [(DEVICE_OPEN_KEY, true)]
        (DeviceState.mk none none none)).isOpen ≠
      (DeviceState.mk none none none).isOpen := by decide

/-- Claim C2, amended: the message-dispatch path writes `isOpen` exactly
when the inbound message carries `DEVICE_OPEN_KEY` (leaving it unchanged
otherwise), while the sensor poller never writes `isArmed` or
`isEnabled`. -/
theorem C2_amended_ownership (msg : InMsg) (s : DeviceState) (sample : Bool) :
    (msg.lookup DEVICE_OPEN_KEY = none →
      (handle_message msg s).isOpen = s.isOpen) ∧
    (∀ v, msg.lookup DEVICE_OPEN_KEY = some v →
      (handle_message msg s).isOpen = some v) ∧
    (pollStep sample s).1.isArmed = s.isArmed ∧
    (pollStep sample s).1.isEnabled = s.isEnabled := by
  refine ⟨fun h => ?_, fun v h => ?_, (pollStep_fst_frame sample s).1,
    (pollStep_fst_frame sample s).2⟩
  · rw [handle_message_isOpen, h]
    rfl
  · rw [handle_message_isOpen, h]
    rfl

/-- Claim C2, amended, witness at a concrete message and state. -/
theorem C2_amended_ownership_witness :
    (handle_message [(DEVICE_ARMED_KEY, true)]
        (DeviceState.mk (some false) none none)).isOpen = some false :=
  (C2_amended_ownership [(DEVICE_ARMED_KEY, true)]
    (DeviceState.mk (some false) none none) true).1 (by decide)

/-- Claim C3: `send_updates` attempts a write to every registered waiter;
each failing write is caught and logged, every waiter outside the failing
subset still receives the message, and — since the function is total
rather than `Except`-valued — no exception reaches the caller. -/
theorem C3_broadcast_best_effort (fails : Observer → Bool) (m : OutMsg)
    (waiters : List Observer) :
    (send_updates fails m waiters).delivered =
      ((waiters.filter fun w => !fails w).map fun w => (w, m)) ∧
    (send_updates fails m waiters).logged = waiters.filter fun w => fails w := by
  rw [send_updates_spec]
  exact ⟨rfl, rfl⟩

/-- Claim C4: `handle_message` updates exactly the fields whose keys occur
in the message — an absent key leaves its field unchanged, a present key
stores the carried value, a message with none of the three device keys
changes nothing at all — and applying a message that only arms the device
yields `isArmed = some true` with the other two fields as before. -/
theorem C4_partial_update_frame (msg : InMsg) (s : DeviceState) :
    (msg.lookup DEVICE_OPEN_KEY = none →
      (handle_message msg s).isOpen = s.isOpen) ∧
    (msg.lookup DEVICE_ARMED_KEY = none →
      (handle_message msg s).isArmed = s.isArmed) ∧
    (msg.lookup DEVICE_ENABLED_KEY = none →
      (handle_message msg s).isEnabled = s.isEnabled) ∧
    (∀ v, msg.lookup DEVICE_OPEN_KEY = some v →
      (handle_message msg s).isOpen = some v) ∧
    (∀ v, msg.lookup DEVICE_ARMED_KEY = some v →
      (handle_message msg s).isArmed = some v) ∧
    (∀ v, msg.lookup DEVICE_ENABLED_KEY = some v →
      (handle_message msg s).isEnabled = some v) ∧
    (msg.lookup DEVICE_OPEN_KEY = none → msg.lookup DEVICE_ARMED_KEY = none →
      msg.lookup DEVICE_ENABLED_KEY = none → handle_message msg s = s) ∧
    handle_message [(DEVICE_ARMED_KEY, true)] s = { s with isArmed := some true } := by
  refine ⟨fun h => ?_, fun h => ?_, fun h => ?_, fun v h => ?_, fun v h => ?_,
    fun v h => ?_, fun h1 h2 h3 => ?_, rfl⟩
  · rw [handle_message_isOpen, h]
    rfl
  · rw [handle_message_isArmed, h]
    rfl
  · rw [handle_message_isEnabled, h]
    rfl
  · rw [handle_message_isOpen, h]; rfl
  · rw [handle_message_isArmed, h]; rfl
  · rw [handle_message_isEnabled, h]; rfl
  · unfold handle_message
    rw [h1, h2, h3]

/-- Claim C4, witness at a concrete message and state. -/
theorem C4_partial_update_frame_witness :
    (handle_message [(DEVICE_ARMED_KEY, true)]
        (DeviceState.mk (some false) none (some true))).isOpen = some false :=
  (C4_partial_update_frame [(DEVICE_ARMED_KEY, true)]
    (DeviceState.mk (some false) none (some true))).1 (by decide)

/-- Claim C5, counterexample: with a decoder that raises on a malformed
text, `on_message` has no `try`/`except` around the decode, so the error
is not absorbed inside the handler but propagates to the transport (which
closes the connection) — refuting the part of the claim that says the
connection does not crash. -/
theorem C5_counterexample :
    on_message (fun _ => Except.error "ValueError") (fun _ => false)
        "not json" (DeviceState.mk none none none) [0] =
      Except.error "ValueError" := rfl

/-- Claim C5, amended: when decoding the raw text raises, the handler
neither updates any state nor broadcasts any REPLY and the process-level
model stays total, but the decode error escapes `on_message` uncaught (so
the transport, not the handler, deals with it by closing that
connection). -/
theorem C5_decode_error (decode : String → Except String InMsg)
    (fails : Observer → Bool) (raw : String) (s : DeviceState)
    (waiters : List Observer) (e : String) (h : decode raw = Except.error e) :
    on_message decode fails raw s waiters = Except.error e := by
  unfold on_message
  rw [h]

/-- Claim C5, amended, witness at a concrete decoder and raw text. -/
theorem C5_decode_error_witness :
    on_message (fun _ => Except.error "ValueError") (fun _ => false)
        "also not json" (DeviceState.mk none none none) [] =
      Except.error "ValueError" :=
  C5_decode_error (fun _ => Except.error "ValueError") (fun _ => false)
    "also not json" (DeviceState.mk none none none) [] "ValueError" rfl

/-- Claim C6, counterexample: `on_close` on a handler that is not in the
waiter set is Python `set.remove` of an absent member, which raises
`KeyError` — not the no-op the claim asserts. -/
theorem C6_counterexample :
    DeviceSocketHandler.on_close 0 [] = Except.error "KeyError" := rfl

/-- Claim C6, amended: removing a present waiter deletes it from the set,
but removing an already-absent waiter raises `KeyError` rather than being
an idempotent no-op. -/
theorem C6_remove_semantics (w : Observer) (waiters : List Observer) :
    (w ∈ waiters →
      DeviceSocketHandler.on_close w waiters = Except.ok (waiters.erase w)) ∧
    (w ∉ waiters →
      DeviceSocketHandler.on_close w waiters = Except.error "KeyError") := by
  unfold DeviceSocketHandler.on_close
  constructor <;> intro h <;> simp [h]

/-- Claim C6, amended, witness at a concrete waiter set. -/
theorem C6_remove_semantics_witness :
    DeviceSocketHandler.on_close 1 [2] = Except.error "KeyError" :=
  (C6_remove_semantics 1 [2]).2 (by decide)

/-- Claim C7, counterexample: at the initial state the REPLY message
carries the armed field as Python `None`, which is not a boolean — so not
every REPLY carries its fields as booleans. -/
theorem C7_counterexample :
    (device_reply_message (DeviceState.mk none none none)).lookup
        DEVICE_ARMED_KEY = some (Value.tri none) ∧
      Value.isBool (Value.tri none) = false := by decide

/-- Claim C7, amended: every outbound message carries `MESSAGE_TYPE` valued
NOTIFY or REPLY; a NOTIFY carries exactly the open field, and every NOTIFY
the poller actually broadcasts carries it as a boolean (the fresh sample);
a REPLY carries exactly the armed and enabled fields as the tri-state
flags of the current state, which are booleans once set by a client but
are `None` before that. -/
theorem C7_message_shapes : ∀ (s : DeviceState) (sample : Bool),
    (device_notify_message s).map Prod.fst =
      [MESSAGE_TYPE_KEY, DEVICE_OPEN_KEY] ∧
    (device_notify_message s).lookup MESSAGE_TYPE_KEY =
      some (Value.str "NOTIFY") ∧
    (device_reply_message s).map Prod.fst =
      [MESSAGE_TYPE_KEY, DEVICE_ARMED_KEY, DEVICE_ENABLED_KEY] ∧
    (device_reply_message s).lookup MESSAGE_TYPE_KEY =
      some (Value.str "REPLY") ∧
    (device_reply_message s).lookup DEVICE_ARMED_KEY =
      some (Value.tri s.isArmed) ∧
    (device_reply_message s).lookup DEVICE_ENABLED_KEY =
      some (Value.tri s.isEnabled) ∧
    ((pollStep sample s).2 = none ∨
      (pollStep sample s).2 =
        some (device_notify_message { s with isOpen := some sample })) ∧
    (device_notify_message { s with isOpen := some sample }).lookup
        DEVICE_OPEN_KEY = some (Value.tri (some sample)) ∧
    Value.isBool (Value.tri (some sample)) = true := by decide

/-- Claim C8: registering a waiter into the empty active set and then
immediately unregistering it leaves the set empty, and a broadcast over
the empty set writes to zero observers. -/
theorem C8_register_unregister (w : Observer) (fails : Observer → Bool)
    (m : OutMsg) :
    DeviceSocketHandler.on_close w (DeviceSocketHandler.«open» w []) =
      Except.ok [] ∧
    send_updates fails m [] = BroadcastResult.mk [] [] := by
  constructor
  · simp [DeviceSocketHandler.«open», DeviceSocketHandler.on_close]
  · rfl

/-- Claim C10: every successfully decoded inbound message — including one
carrying none of the recognized keys — triggers exactly one REPLY
broadcast, built from the updated state and fanned out through
`send_updates` to every currently registered waiter (not only the message's
sender); with no write failures, every waiter receives it and nothing is
logged. -/
theorem C10_reply_to_all (decode : String → Except String InMsg)
    (raw : String) (msg : InMsg) (s : DeviceState)
    (waiters : List Observer) (h : decode raw = Except.ok msg) :
    on_message decode (fun _ => false) raw s waiters =
      Except.ok (handle_message msg s,
        BroadcastResult.mk
          (waiters.map fun w =>
            (w, device_reply_message (handle_message msg s))) []) := by
  unfold on_message
  rw [h]
  show Except.ok (handle_message msg s,
      send_updates (fun _ => false)
        (device_reply_message (handle_message msg s)) waiters) = _
  rw [send_updates_spec]
  simp

/-- Claim C10, witness at a concrete decoder, empty message and one
registered waiter. -/
theorem C10_reply_to_all_witness :
    on_message (fun _ => Except.ok ([] : InMsg)) (fun _ => false) ""
        (DeviceState.mk none none none) [0] =
      Except.ok (handle_message [] (DeviceState.mk none none none),
        BroadcastResult.mk
          [(0, device_reply_message
              (handle_message [] (DeviceState.mk none none none)))] []) :=
  C10_reply_to_all (fun _ => Except.ok ([] : InMsg)) "" []
    (DeviceState.mk none none none) [0] rfl

end SHS
